import Mathlib

/-!
Verification of the crypto-vision backend specification against a shallow
embedding of its Python source (src/backend/app).

Conventions of the embedding:
* Database tables are lists of records; SQL WHERE clauses become list
  filters written clause-for-clause after the SQLAlchemy expressions.
* Timestamps (datetime) are integers (seconds); `datetime.utcnow()` is an
  explicit `now` parameter.  `timedelta(days = n)` is `n * 86400`.
* Prices (SQL Float) are exact rationals; the comparisons the code performs
  on them are the standard numeric ones.
* Fallible request handlers return `Except HError A` where `HError` carries
  the HTTP status code and detail string raised via HTTPException; handlers
  that also mutate the database return the new table alongside.
* Pydantic update payloads with `exclude_unset` semantics are records of
  `Option` fields, `none` meaning the field was not set in the payload.
-/

namespace CryptoVision

/-- HTTP error as raised through HTTPException(status_code, detail). -/
structure HError where
  status : Nat
  detail : String
deriving DecidableEq, Repr

/-! ## Data model (app/models) -/

/-- app/models/alert.py AlertStatus. -/
inductive AlertStatus
  | active
  | triggered
  | cancelled
  | expired
deriving DecidableEq, Repr

/-- app/models/alert.py AlertCondition: the six comparison operators,
stored as the strings ">", ">=", "<", "<=", "==", "!=". -/
inductive AlertCondition
  | gt
  | ge
  | lt
  | le
  | eq
  | ne
deriving DecidableEq, Repr

/-- app/models/alert.py Alert (fields the queries under verification read).
`created_at` is kept because one query orders by it. -/
structure Alert where
  id : String
  user_id : String
  symbol : String
  condition : AlertCondition
  target_price : ℚ
  status : AlertStatus
  is_active : Bool
  expires_at : Option Int
  created_at : Int
deriving DecidableEq, Repr

/-- app/models/user.py User (fields read by the code under verification). -/
structure User where
  id : String
  email : String
  username : String
  hashed_password : String
  full_name : Option String
  is_active : Bool
  is_superuser : Bool
deriving DecidableEq, Repr

/-- app/models/models.py ModelVersion. -/
structure ModelVersion where
  id : String
  name : String
  version : String
  path : String
  is_production : Bool
deriving DecidableEq, Repr

/-! ## Alert queries (app/crud/alert.py, class CRUDAlert) -/

/-- Python str.upper on the String model: uppercase every character (the
symbols involved are ASCII, where the two functions agree). -/
def pyUpper (s : String) : String :=
  ⟨s.data.map Char.toUpper⟩

/-- The clause `or_(expires_at.is_(None), expires_at > datetime.utcnow())`
shared by the queries in app/crud/alert.py. -/
def expiry_clause (now : Int) : Option Int → Bool
  | none => true
  | some t => decide (now < t)

/-- The `or_` chain of `and_(condition == c, current_price OP target_price)`
clauses of CRUDAlert.get_alerts_for_price_check (app/crud/alert.py,
lines 104-111), in source order. -/
def condition_clause (c : AlertCondition) (current_price target_price : ℚ) : Bool :=
  (decide (c = AlertCondition.gt) && decide (current_price > target_price)) ||
  (decide (c = AlertCondition.ge) && decide (current_price ≥ target_price)) ||
  (decide (c = AlertCondition.lt) && decide (current_price < target_price)) ||
  (decide (c = AlertCondition.le) && decide (current_price ≤ target_price)) ||
  (decide (c = AlertCondition.eq) && decide (current_price = target_price)) ||
  (decide (c = AlertCondition.ne) && decide (current_price ≠ target_price))

namespace CrudAlert

/-- CRUDAlert.get_alerts_for_price_check (app/crud/alert.py, lines 88-115):
select alerts where symbol = symbol.upper(), status = ACTIVE, expiry absent
or in the future, and the stored operator holds of the prices. -/
def get_alerts_for_price_check (db : List Alert) (symbol : String)
    (current_price : ℚ) (now : Int) : List Alert :=
  db.filter fun a =>
    decide (a.symbol = pyUpper symbol) &&
    decide (a.status = AlertStatus.active) &&
    expiry_clause now a.expires_at &&
    condition_clause a.condition current_price a.target_price

/-- CRUDAlert.get_active_alerts_for_user (app/crud/alert.py, lines 39-57):
user_id matches, status = ACTIVE, and expiry absent or in the future. -/
def get_active_alerts_for_user (db : List Alert) (user_id : String)
    (now : Int) : List Alert :=
  db.filter fun a =>
    decide (a.user_id = user_id) &&
    decide (a.status = AlertStatus.active) &&
    expiry_clause now a.expires_at

end CrudAlert

/-! ## The second, parallel CRUDAlert (app/crud/crypto.py, lines 352-424) -/

namespace CryptoCrudAlert

/-- CRUDAlert.get_active_alerts_for_user of app/crud/crypto.py
(lines 355-372): filters only on user_id and the is_active flag; it reads
neither status nor expires_at.  The trailing order_by(created_at.desc())
only permutes the rows and is not modelled; the claims about this query
concern which rows it returns. -/
def get_active_alerts_for_user (db : List Alert) (user_id : String) : List Alert :=
  db.filter fun a => decide (a.user_id = user_id) && a.is_active

end CryptoCrudAlert

/-- The operator table of the claim, read off the spec sentence: apply the
stored comparison operator to (current price, target price) using standard
numeric comparison. -/
def condApplies (c : AlertCondition) (current_price target_price : ℚ) : Prop :=
  match c with
  | AlertCondition.gt => current_price > target_price
  | AlertCondition.ge => current_price ≥ target_price
  | AlertCondition.lt => current_price < target_price
  | AlertCondition.le => current_price ≤ target_price
  | AlertCondition.eq => current_price = target_price
  | AlertCondition.ne => current_price ≠ target_price

/-! Concrete alerts for the worked examples of the claims. -/

/-- An active alert with condition `>` and target 100. -/
def gtAlert : Alert :=
  { id := "a1", user_id := "u1", symbol := "BTC", condition := AlertCondition.gt
    target_price := 100, status := AlertStatus.active, is_active := true
    expires_at := none, created_at := 0 }

/-- An active alert with condition `==` and target 50. -/
def eqAlert : Alert :=
  { id := "a2", user_id := "u1", symbol := "BTC", condition := AlertCondition.eq
    target_price := 50, status := AlertStatus.active, is_active := true
    expires_at := none, created_at := 0 }

/-- An alert whose stored status still reads Active and whose is_active flag
is still set, but whose expiry (time 5) lies in the past of `now = 10`. -/
def staleAlert : Alert :=
  { id := "a3", user_id := "u1", symbol := "BTC", condition := AlertCondition.gt
    target_price := 100, status := AlertStatus.active, is_active := true
    expires_at := some 5, created_at := 0 }

/-! ## Generic persistence (app/crud/base.py) -/

/-- Lookup in a Python dict modelled as a key-value list (first hit wins,
as dict keys are unique). -/
def dictLookup (k : String) : List (String × String) → Option String
  | [] => none
  | kv :: rest => if k = kv.1 then some kv.2 else dictLookup k rest

namespace CrudBase

/-- CRUDBase.update (app/crud/base.py, lines 69-91) on a field-map view of
the entity: obj_data is the stored entity as a field map (the
jsonable_encoder of db_obj), update_data the payload dict
(obj_in.dict(exclude_unset=True)); the loop walks the fields of the entity
and overwrites exactly those present in update_data.  Keys of update_data
that are not fields of the entity are never consulted. -/
def update (obj_data update_data : List (String × String)) : List (String × String) :=
  obj_data.map fun kv =>
    match dictLookup kv.1 update_data with
    | some w => (kv.1, w)
    | none => kv

end CrudBase

/-! ## User update (app/crud/user.py) -/

/-- Stands in for get_password_hash of app/core/security.py, which
delegates to the external passlib bcrypt context (out of the spec scope);
the claims under verification need only that it is a function of the
submitted password. -/
def get_password_hash (password : String) : String :=
  String.append "bcrypt-hash:" password

/-- app/schemas/user.py UserUpdate under exclude_unset dict semantics: a
field is some v exactly when the payload explicitly set it. -/
structure UserUpdatePayload where
  email : Option String
  full_name : Option String
  is_active : Option Bool
  is_superuser : Option Bool
  password : Option String
deriving DecidableEq, Repr

namespace CrudUser

/-- CRUDUser.update (app/crud/user.py, lines 50-68), composed with the
CRUDBase.update loop it calls, specialised to the User fields: a truthy
password entry of the update dict is replaced by a hashed_password entry
before the per-field application (a present-but-empty password is falsy in
Python, and the raw key "password" is not a field of the stored entity, so
it is ignored by the base loop); every other field of the entity is
overwritten exactly when present in the payload. -/
def update (u : User) (obj_in : UserUpdatePayload) : User :=
  let hp : Option String :=
    match obj_in.password with
    | some pw => if pw = "" then none else some (get_password_hash pw)
    | none => none
  { u with
    email := obj_in.email.getD u.email
    full_name := match obj_in.full_name with
      | some v => some v
      | none => u.full_name
    is_active := obj_in.is_active.getD u.is_active
    is_superuser := obj_in.is_superuser.getD u.is_superuser
    hashed_password := hp.getD u.hashed_password }

end CrudUser

/-! ## Model versions (app/crud/crypto.py and endpoints) -/

/-- app/schemas ModelVersionCreate payload. -/
structure ModelVersionCreatePayload where
  name : String
  version : String
  path : String
  is_production : Bool
deriving DecidableEq, Repr

/-- Python runtime exceptions raised by the code under verification. -/
inductive PyExc
  | nameError
  | attributeError
deriving DecidableEq, Repr

namespace CrudModelVersion

/-- CRUDBase.get on the model_versions table. -/
def get (db : List ModelVersion) (id : String) : Option ModelVersion :=
  db.find? fun m => decide (m.id = id)

/-- CRUDModelVersion.set_production_version (app/crud/crypto.py, 320-350).
When the id matches no row the method returns None without touching the
table.  When a row is found, the next statement evaluates the name
`update`, which app/crud/crypto.py never imports (its sqlalchemy import
line brings in only and_, func, select, text), so a NameError is raised
before any row is modified and nothing is committed.  The documented
unset-then-set therefore never executes. -/
def set_production_version (db : List ModelVersion) (model_version_id : String) :
    Except PyExc (Option ModelVersion × List ModelVersion) :=
  match get db model_version_id with
  | none => Except.ok (none, db)
  | some _ => Except.error PyExc.nameError

end CrudModelVersion

/-- The create-model-version endpoint (app/api/v1/endpoints/crypto.py,
lines 223-249; the twin in endpoints/models.py lines 47-73 behaves the
same).  Its first statement, line 233, evaluates crud.model_version: the
app.crud package initializer exports only the user and alert singletons
and never imports app.crud.crypto, so the attribute lookup raises
AttributeError on every call, before the duplicate check, the
is_production branch and the create can run; the framework surfaces the
unhandled exception as a 500 response and no row is persisted.  (Even if
the lookup resolved, the is_production branch would call
set_production_version with the argument `existing.id if existing else
""`, which on that branch is always the empty string, no row id, so no
existing production version would be unset before the create.) -/
def create_model_version (db : List ModelVersion)
    (model_in : ModelVersionCreatePayload) (newId : String) :
    Except HError ModelVersion × List ModelVersion :=
  (Except.error ⟨500, "AttributeError"⟩, db)

/-- The number of production-flagged versions of a given model name. -/
def productionCount (db : List ModelVersion) (name : String) : Nat :=
  (db.filter fun m => decide (m.name = name) && m.is_production).length

/-- A production version of model "m" already stored. -/
def mvProd : ModelVersion :=
  { id := "a", name := "m", version := "1", path := "p", is_production := true }

/-- A create payload for a second, production-flagged version of "m". -/
def mvPayload : ModelVersionCreatePayload :=
  { name := "m", version := "2", path := "q", is_production := true }

/-! ## Tokens (app/core/security.py, app/schemas/token.py) -/

/-- A JWT as the data jose encodes and decodes: the claim set written by
the token constructors plus the signing key.  Modelled from the jose
library contract (an external dependency, out of the spec scope): decoding
under a secret succeeds exactly when the token was signed with that secret
and its exp claim has not passed. -/
structure Token where
  sub : String
  exp : Int
  typ : String
  key : String
deriving DecidableEq, Repr

/-- app/schemas/token.py TokenPayload (the source field `type` is spelled
typ here); every field is optional, so constructing it from any decoded
claim set succeeds. -/
structure TokenPayload where
  sub : Option String
  exp : Option Int
  typ : Option String
deriving DecidableEq, Repr

/-- jose jwt.decode with signature and expiry checking (see Token). -/
def jwt_decode (t : Token) (secret : String) (now : Int) : Option TokenPayload :=
  if t.key = secret ∧ now ≤ t.exp then
    some { sub := some t.sub, exp := some t.exp, typ := some t.typ }
  else none

/-- create_access_token (app/core/security.py, lines 17-44): subject,
expiry now + delta, type "access", signed with the configured secret. -/
def create_access_token (subject : String) (expires_delta : Int)
    (now : Int) (secret : String) : Token :=
  { sub := subject, exp := now + expires_delta, typ := "access", key := secret }

/-- create_refresh_token (app/core/security.py, lines 46-73). -/
def create_refresh_token (subject : String) (expires_delta : Int)
    (now : Int) (secret : String) : Token :=
  { sub := subject, exp := now + expires_delta, typ := "refresh", key := secret }

/-- verify_token (app/core/security.py, lines 100-119): decode and wrap
the claims in TokenPayload, None on any decoding failure. -/
def verify_token (t : Token) (secret : String) (now : Int) : Option TokenPayload :=
  jwt_decode t secret now

/-- verify_access_token (app/core/security.py, lines 121-134): the payload
of verify_token when its type claim is "access", None otherwise. -/
def verify_access_token (t : Token) (secret : String) (now : Int) :
    Option TokenPayload :=
  match verify_token t secret now with
  | some td => if td.typ = some "access" then some td else none
  | none => none

/-- verify_refresh_token (app/core/security.py, lines 136-149). -/
def verify_refresh_token (t : Token) (secret : String) (now : Int) :
    Option TokenPayload :=
  match verify_token t secret now with
  | some td => if td.typ = some "refresh" then some td else none
  | none => none

/-! ## Request dependencies (app/api/deps.py) -/

/-- The token-validation stage of get_current_user (app/api/deps.py,
lines 56-65): jwt.decode followed by the TokenPayload construction,
raising 403 on a decode failure.  No token kind is inspected here or
anywhere later in the dependency. -/
def get_current_user_token_data (token : Token) (secret : String) (now : Int) :
    Except HError TokenPayload :=
  match jwt_decode token secret now with
  | none => Except.error ⟨403, "Could not validate credentials"⟩
  | some td => Except.ok td

/-- get_current_user (app/api/deps.py, lines 39-80).  After the token
stage, line 67 evaluates crud_user.user: the from-import in deps.py binds
crud_user to the CRUDUser singleton, because app/crud/__init__.py rebinds
the package attribute named user to that instance, and the instance has no
attribute named user.  Every call therefore raises AttributeError before
the user lookup, the not-found branch and the is_active check at lines
74-78 can run; the framework surfaces the unhandled exception as a 500
response and the user table is never consulted. -/
def get_current_user (db : List User) (token : Token) (secret : String)
    (now : Int) : Except HError User :=
  match get_current_user_token_data token secret now with
  | Except.error e => Except.error e
  | Except.ok _ => Except.error ⟨500, "AttributeError"⟩

/-- get_current_active_user (app/api/deps.py, lines 83-103): delegates to
get_current_user, then rejects inactive users with 400. -/
def get_current_active_user (db : List User) (token : Token) (secret : String)
    (now : Int) : Except HError User :=
  match get_current_user db token secret now with
  | Except.error e => Except.error e
  | Except.ok u =>
    if ¬ u.is_active then Except.error ⟨400, "Inactive user"⟩ else Except.ok u

/-- get_current_active_superuser (app/api/deps.py, lines 106-126). -/
def get_current_active_superuser (db : List User) (token : Token)
    (secret : String) (now : Int) : Except HError User :=
  match get_current_user db token secret now with
  | Except.error e => Except.error e
  | Except.ok u =>
    if ¬ u.is_superuser then
      Except.error ⟨400, "The user does not have enough privileges"⟩
    else Except.ok u

/-! ## User endpoints (app/api/v1/endpoints/users.py) -/

/-- CRUDBase.get on the users table. -/
def getUser (db : List User) (id : String) : Option User :=
  db.find? fun u => decide (u.id = id)

/-- delete_user (app/api/v1/endpoints/users.py, lines 141-165), given the
already-resolved principal (the route guards itself with the
get_current_active_superuser dependency): 404 when the target id is
absent, 400 when the target is the caller, otherwise CRUDUser.remove
deletes the row and returns it.  The handler yields the response together
with the resulting table. -/
def delete_user (db : List User) (user_id : String) (current_user : User) :
    Except HError User × List User :=
  match getUser db user_id with
  | none => (Except.error ⟨404, "User not found"⟩, db)
  | some target =>
    if target.id = current_user.id then
      (Except.error ⟨400, "Cannot delete yourself"⟩, db)
    else
      (Except.ok target, db.filter fun u => decide (u.id ≠ user_id))

/-- update_user (app/api/v1/endpoints/users.py, lines 109-139), given the
already-resolved principal: 403 unless the caller targets itself or is a
superuser; 404 when the target is absent; then the hasattr/delattr guard
at lines 134-136 strips is_superuser from the payload whenever the caller
is not a superuser (delattr removes the value from the pydantic instance,
so dict(exclude_unset=True) no longer yields the key), and
CRUDUser.update is applied to the target row. -/
def update_user (db : List User) (user_id : String) (current_user : User)
    (user_in : UserUpdatePayload) : Except HError User × List User :=
  if current_user.id ≠ user_id ∧ ¬ current_user.is_superuser then
    (Except.error ⟨403, "Not enough permissions"⟩, db)
  else
    match getUser db user_id with
    | none => (Except.error ⟨404, "User not found"⟩, db)
    | some target =>
      let stripped :=
        if ¬ current_user.is_superuser then
          { user_in with is_superuser := none }
        else user_in
      let updated := CrudUser.update target stripped
      (Except.ok updated, db.map fun u => if u.id = user_id then updated else u)

/-! ## Auth endpoints (app/api/v1/endpoints/auth.py) -/

/-- Token pair response of the auth endpoints (app/schemas/token.py
Token), with the two tokens kept structured. -/
structure TokenResponse where
  access_token : Token
  refresh_token : Token
  token_type : String
deriving DecidableEq, Repr

/-- refresh_token (app/api/v1/endpoints/auth.py, lines 63-93): verify the
submitted refresh token, look up its subject, and answer with a freshly
created access token while placing the submitted refresh token itself,
unchanged, in the response; both failure branches raise 401. -/
def refresh_token_endpoint (db : List User) (tok : Token) (secret : String)
    (now : Int) (access_expires : Int) : Except HError TokenResponse :=
  match verify_refresh_token tok secret now with
  | none => Except.error ⟨401, "Could not validate credentials"⟩
  | some td =>
    match db.find? (fun u => decide (some u.id = td.sub)) with
    | none => Except.error ⟨401, "Could not validate credentials"⟩
    | some u =>
      Except.ok
        { access_token := create_access_token u.id access_expires now secret
          refresh_token := tok
          token_type := "bearer" }

/-! ## Price history endpoint (app/api/v1/endpoints/crypto.py) -/

/-- The enumerated intervals of read_price_history (line 114). -/
def valid_intervals : List String := ["1m", "5m", "15m", "1h", "4h", "1d", "1w"]

/-- The arguments read_price_history forwards to
CRUDPriceHistory.get_historical_data when validation passes. -/
structure PriceQueryArgs where
  cryptocurrency_id : String
  start_date : Int
  end_date : Option Int
  interval : String
deriving DecidableEq, Repr

/-- read_price_history (app/api/v1/endpoints/crypto.py, lines 96-137),
validation stage: unknown intervals are rejected with 400; spans where
(end_date or now) minus start_date exceeds 365 days are rejected with 400;
otherwise the query layer is invoked with the given arguments. -/
def read_price_history (cryptocurrency_id : String) (start_date : Int)
    (end_date : Option Int) (interval : String) (now : Int) :
    Except HError PriceQueryArgs :=
  if interval ∉ valid_intervals then
    Except.error ⟨400, "Invalid interval. Must be one of: 1m, 5m, 15m, 1h, 4h, 1d, 1w"⟩
  else if (end_date.getD now) - start_date > 365 * 86400 then
    Except.error ⟨400, "Date range cannot exceed 365 days"⟩
  else
    Except.ok ⟨cryptocurrency_id, start_date, end_date, interval⟩

/-! ## Concrete records for the worked examples -/

/-- An inactive user (also flagged superuser, to exercise the regardless
clauses of the claims). -/
def inactiveUser : User :=
  { id := "u9", email := "x@example.com", username := "x", hashed_password := "h"
    full_name := none, is_active := false, is_superuser := true }

/-- An active superuser. -/
def adminUser : User :=
  { id := "u1", email := "a@example.com", username := "a", hashed_password := "ha"
    full_name := none, is_active := true, is_superuser := true }

/-- A plain active user. -/
def plainUser : User :=
  { id := "u2", email := "b@example.com", username := "b", hashed_password := "hb"
    full_name := some "Bee", is_active := true, is_superuser := false }

/-- A validly signed, unexpired refresh-kind token for u2 under secret "s"
as of time 0. -/
def refreshTok : Token := { sub := "u2", exp := 100, typ := "refresh", key := "s" }

/-- A validly signed, unexpired access-kind token for u9 under secret "s"
as of time 0. -/
def accessTok : Token := { sub := "u9", exp := 100, typ := "access", key := "s" }

/-! ## Theorems -/

theorem expiry_clause_iff (now : Int) (e : Option Int) :
    expiry_clause now e = true ↔ (e = none ∨ ∃ t, e = some t ∧ now < t) := by
  cases e with
  | none => simp [expiry_clause]
  | some t => simp [expiry_clause]

theorem condition_clause_iff (c : AlertCondition) (p t : ℚ) :
    condition_clause c p t = true ↔ condApplies c p t := by
  cases c <;> simp [condition_clause, condApplies]

/-- C1: get_alerts_for_price_check returns exactly the alerts in the table
whose status is Active, whose symbol equals the upper-cased input symbol,
whose expiry is absent or strictly in the future, and whose stored operator
holds of (current price, target price) under standard numeric comparison;
with condition `>` and target 100, price 101 triggers while 100 and 99 do
not, and with condition `==` and target 50, exactly price 50 triggers. -/
theorem get_alerts_for_price_check_correct :
    (∀ (db : List Alert) (s : String) (p : ℚ) (now : Int) (a : Alert),
        a ∈ CrudAlert.get_alerts_for_price_check db s p now ↔
          a ∈ db ∧ a.status = AlertStatus.active ∧ a.symbol = pyUpper s ∧
            (a.expires_at = none ∨ ∃ t, a.expires_at = some t ∧ now < t) ∧
            condApplies a.condition p a.target_price) ∧
    CrudAlert.get_alerts_for_price_check [gtAlert] "BTC" 101 0 = [gtAlert] ∧
    CrudAlert.get_alerts_for_price_check [gtAlert] "BTC" 100 0 = [] ∧
    CrudAlert.get_alerts_for_price_check [gtAlert] "BTC" 99 0 = [] ∧
    CrudAlert.get_alerts_for_price_check [eqAlert] "BTC" 50 0 = [eqAlert] ∧
    (∀ p : ℚ, p ≠ 50 → CrudAlert.get_alerts_for_price_check [eqAlert] "BTC" p 0 = []) := by
  refine ⟨?_, by decide, by decide, by decide, by decide, ?_⟩
  · intro db s p now a
    simp only [CrudAlert.get_alerts_for_price_check, List.mem_filter,
      Bool.and_eq_true, decide_eq_true_eq, expiry_clause_iff, condition_clause_iff]
    tauto
  · intro p hp
    simp [CrudAlert.get_alerts_for_price_check, List.filter, eqAlert,
      condition_clause, expiry_clause, pyUpper, hp]

theorem get_alerts_for_price_check_correct_witness :
    (49 : ℚ) ≠ 50 ∧ CrudAlert.get_alerts_for_price_check [eqAlert] "BTC" 49 0 = [] :=
  ⟨by decide, get_alerts_for_price_check_correct.2.2.2.2.2 49 (by decide)⟩

/-- C4 counterexample: staleAlert has expiry 5, in the past of now = 10, its
stored status still reads Active, yet the per-user active-alerts query of
app/crud/crypto.py returns it (that query filters only on is_active). -/
theorem crypto_active_alerts_return_expired :
    staleAlert.status = AlertStatus.active ∧ staleAlert.expires_at = some 5 ∧
      (5 : Int) < 10 ∧
      CryptoCrudAlert.get_active_alerts_for_user [staleAlert] "u1" = [staleAlert] := by
  refine ⟨rfl, rfl, by decide, ?_⟩
  simp [CryptoCrudAlert.get_active_alerts_for_user, List.filter, staleAlert]

/-- C4 amended: the per-user active-alerts query of app/crud/alert.py never
returns an alert whose expiry has passed (it requires status Active and
expiry absent or strictly in the future); the parallel per-user
active-alerts query of app/crud/crypto.py filters only on the is_active
flag, so it can return alerts whose expires_at is in the past. -/
theorem active_alerts_queries_expiry (db : List Alert) (user_id : String) (now : Int) :
    (∀ a ∈ CrudAlert.get_active_alerts_for_user db user_id now,
        a.user_id = user_id ∧ a.status = AlertStatus.active ∧
          (a.expires_at = none ∨ ∃ t, a.expires_at = some t ∧ now < t)) ∧
    (∀ a, a ∈ CryptoCrudAlert.get_active_alerts_for_user db user_id ↔
        a ∈ db ∧ a.user_id = user_id ∧ a.is_active = true) := by
  constructor
  · intro a ha
    simp only [CrudAlert.get_active_alerts_for_user, List.mem_filter,
      Bool.and_eq_true, decide_eq_true_eq, expiry_clause_iff] at ha
    tauto
  · intro a
    simp only [CryptoCrudAlert.get_active_alerts_for_user, List.mem_filter,
      Bool.and_eq_true, decide_eq_true_eq]

theorem active_alerts_queries_expiry_witness :
    gtAlert.user_id = "u1" ∧ gtAlert.status = AlertStatus.active ∧
      (gtAlert.expires_at = none ∨ ∃ t, gtAlert.expires_at = some t ∧ (0 : Int) < t) :=
  (active_alerts_queries_expiry [gtAlert] "u1" 0).1 gtAlert
    (by simp [CrudAlert.get_active_alerts_for_user, List.filter, gtAlert, expiry_clause])

/-- C2: evaluation of the failing input and of every production-flag
path.  Every create-model-version request fails with the modelled
AttributeError as a 500 response and persists nothing — in particular the
payload asking for a second production version of "m" creates no row, and
no unset runs — and set_production_version never sets a flag either: when
the id matches no row it returns None leaving the table untouched, and
when a row is found it raises NameError before any write.  No operation
of the program can set the production flag, so none performs the claimed
unset-then-set. -/
theorem create_model_version_cannot_set_production :
    (∀ (db : List ModelVersion) (model_in : ModelVersionCreatePayload)
        (newId : String),
      create_model_version db model_in newId =
        (Except.error ⟨500, "AttributeError"⟩, db)) ∧
    (∀ (db : List ModelVersion) (id : String),
      CrudModelVersion.set_production_version db id = Except.ok (none, db) ∨
      CrudModelVersion.set_production_version db id =
        Except.error PyExc.nameError) ∧
    create_model_version [mvProd] mvPayload "b" =
      (Except.error ⟨500, "AttributeError"⟩, [mvProd]) ∧
    CrudModelVersion.set_production_version [mvProd] "a" =
      Except.error PyExc.nameError ∧
    productionCount [mvProd] "m" = 1 := by
  refine ⟨fun db model_in newId => rfl, ?_, rfl, rfl, rfl⟩
  intro db id
  unfold CrudModelVersion.set_production_version
  cases h : CrudModelVersion.get db id with
  | none =>
    simp only [h]
    exact Or.inl trivial
  | some mv =>
    simp only [h]
    exact Or.inr trivial

/-- C6: the update operation applies exactly the fields present in the
payload and leaves absent fields of the entity unchanged: on the field-map
view, each field of the updated entity carries the payload value when the
key is present and the prior value otherwise, and keys absent from the
entity stay absent; in particular CRUDUser.update with a payload setting
only full_name leaves email and hashed_password (and the other fields) at
their prior values. -/
theorem update_applies_exactly_present_fields :
    (∀ (obj_data update_data : List (String × String)) (k : String),
        dictLookup k (CrudBase.update obj_data update_data) =
          match dictLookup k obj_data with
          | none => none
          | some v => (dictLookup k update_data).getD v) ∧
    (∀ (u : User) (v : String),
        (CrudUser.update u ⟨none, some v, none, none, none⟩).email = u.email ∧
        (CrudUser.update u ⟨none, some v, none, none, none⟩).hashed_password =
          u.hashed_password ∧
        (CrudUser.update u ⟨none, some v, none, none, none⟩).full_name = some v ∧
        (CrudUser.update u ⟨none, some v, none, none, none⟩).is_active = u.is_active ∧
        (CrudUser.update u ⟨none, some v, none, none, none⟩).is_superuser =
          u.is_superuser) := by
  constructor
  · intro obj_data update_data k
    induction obj_data with
    | nil => rfl
    | cons kv rest ih =>
      obtain ⟨k1, v1⟩ := kv
      by_cases hk : k = k1
      · subst hk
        cases hu : dictLookup k update_data with
        | none => simp [CrudBase.update, dictLookup, hu]
        | some w => simp [CrudBase.update, dictLookup, hu]
      · cases hu : dictLookup k1 update_data with
        | none =>
          simpa [CrudBase.update, dictLookup, hu, hk] using ih
        | some w =>
          simpa [CrudBase.update, dictLookup, hu, hk] using ih
  · intro u v
    exact ⟨rfl, rfl, rfl, rfl, rfl⟩

theorem verify_access_token_eq (t : Token) (secret : String) (now : Int) :
    verify_access_token t secret now =
      if t.key = secret ∧ now ≤ t.exp ∧ t.typ = "access" then
        some { sub := some t.sub, exp := some t.exp, typ := some t.typ }
      else none := by
  unfold verify_access_token verify_token jwt_decode
  by_cases h1 : t.key = secret ∧ now ≤ t.exp
  · by_cases h2 : t.typ = "access" <;> simp [h1, h2]
  · have h3 : ¬ (t.key = secret ∧ now ≤ t.exp ∧ t.typ = "access") :=
      fun hc => h1 ⟨hc.1, hc.2.1⟩
    simp [h1, h3]

theorem verify_refresh_token_eq (t : Token) (secret : String) (now : Int) :
    verify_refresh_token t secret now =
      if t.key = secret ∧ now ≤ t.exp ∧ t.typ = "refresh" then
        some { sub := some t.sub, exp := some t.exp, typ := some t.typ }
      else none := by
  unfold verify_refresh_token verify_token jwt_decode
  by_cases h1 : t.key = secret ∧ now ≤ t.exp
  · by_cases h2 : t.typ = "refresh" <;> simp [h1, h2]
  · have h3 : ¬ (t.key = secret ∧ now ≤ t.exp ∧ t.typ = "refresh") :=
      fun hc => h1 ⟨hc.1, hc.2.1⟩
    simp [h1, h3]

/-- C3 counterexample: a validly signed, unexpired refresh-kind token
presented where an access token is required.  The token-validation stage
of get_current_user recovers its payload — the dependency never consults
the kind — so the claim that such a token fails verification with no
payload recovered is false on this code path. -/
theorem get_current_user_accepts_refresh_kind :
    refreshTok.typ = "refresh" ∧
    get_current_user_token_data refreshTok "s" 0 =
      Except.ok { sub := some "u2", exp := some 100, typ := some "refresh" } :=
  ⟨rfl, rfl⟩

/-- C3 amended: the verification helpers of app/core/security.py fail
exactly when the signature is invalid, the token is expired, or the kind
claim differs from the expected one, and the refresh-token endpoint
rejects any token whose kind is not refresh with 401; but the
access-token-requiring dependency get_current_user recovers the payload of
every validly signed, unexpired token regardless of its kind, performing
no kind check. -/
theorem token_kind_verification (t : Token) (secret : String) (now : Int)
    (db : List User) (d : Int) :
    ((verify_access_token t secret now).isSome ↔
      t.key = secret ∧ now ≤ t.exp ∧ t.typ = "access") ∧
    ((verify_refresh_token t secret now).isSome ↔
      t.key = secret ∧ now ≤ t.exp ∧ t.typ = "refresh") ∧
    (t.typ ≠ "refresh" →
      refresh_token_endpoint db t secret now d =
        Except.error ⟨401, "Could not validate credentials"⟩) ∧
    (t.key = secret → now ≤ t.exp →
      get_current_user_token_data t secret now =
        Except.ok { sub := some t.sub, exp := some t.exp, typ := some t.typ }) := by
  refine ⟨?_, ?_, ?_, ?_⟩
  · rw [verify_access_token_eq]
    by_cases h : t.key = secret ∧ now ≤ t.exp ∧ t.typ = "access" <;> simp [h]
  · rw [verify_refresh_token_eq]
    by_cases h : t.key = secret ∧ now ≤ t.exp ∧ t.typ = "refresh" <;> simp [h]
  · intro ht
    unfold refresh_token_endpoint
    rw [verify_refresh_token_eq]
    have h3 : ¬ (t.key = secret ∧ now ≤ t.exp ∧ t.typ = "refresh") :=
      fun hc => ht hc.2.2
    simp [h3]
  · intro hk he
    unfold get_current_user_token_data jwt_decode
    simp [hk, he]

theorem token_kind_verification_witness :
    refresh_token_endpoint [plainUser] accessTok "s" 0 50 =
      Except.error ⟨401, "Could not validate credentials"⟩ ∧
    (verify_access_token accessTok "s" 0).isSome :=
  ⟨(token_kind_verification accessTok "s" 0 [plainUser] 50).2.2.1 (by decide),
   (token_kind_verification accessTok "s" 0 [plainUser] 50).1.mpr
     ⟨rfl, by decide, rfl⟩⟩

/-- C5: evaluation at the failing input.  For any database containing an
inactive user and any validly signed, unexpired token, get_current_user
and both wrappers built on it fail with the modelled AttributeError as a
500 response — the same outcome as for every other principal — rather
than rejecting the inactive user with an authorization error; the
is_active check of deps.py line 74 is unreachable. -/
theorem inactive_user_rejected_only_by_crash (db : List User) (u : User)
    (t : Token) (secret : String) (now : Int)
    (hmem : u ∈ db) (hinact : u.is_active = false)
    (hkey : t.key = secret) (hexp : now ≤ t.exp) :
    get_current_user db t secret now = Except.error ⟨500, "AttributeError"⟩ ∧
    get_current_active_user db t secret now =
      Except.error ⟨500, "AttributeError"⟩ ∧
    get_current_active_superuser db t secret now =
      Except.error ⟨500, "AttributeError"⟩ := by
  have h : get_current_user db t secret now =
      Except.error ⟨500, "AttributeError"⟩ := by
    unfold get_current_user get_current_user_token_data jwt_decode
    simp [hkey, hexp]
  refine ⟨h, ?_, ?_⟩
  · unfold get_current_active_user
    rw [h]
  · unfold get_current_active_superuser
    rw [h]

theorem inactive_user_rejected_only_by_crash_witness :
    inactiveUser ∈ [inactiveUser] ∧ inactiveUser.is_active = false ∧
    get_current_user [inactiveUser] accessTok "s" 0 =
      Except.error ⟨500, "AttributeError"⟩ :=
  ⟨List.mem_singleton.mpr rfl, rfl,
   (inactive_user_rejected_only_by_crash [inactiveUser] inactiveUser accessTok
     "s" 0 (List.mem_singleton.mpr rfl) rfl rfl (by decide)).1⟩

/-- C7: read_price_history rejects an interval outside the enumerated set
with a 400 validation error, and rejects a date range whose span, with the
end defaulting to now, exceeds 365 days with a 400 validation error; in
both cases the query layer is not invoked and no fatal error is
produced. -/
theorem read_price_history_rejects_invalid (cryptocurrency_id : String)
    (start_date : Int) (end_date : Option Int) (interval : String) (now : Int) :
    (interval ∉ valid_intervals →
      read_price_history cryptocurrency_id start_date end_date interval now =
        Except.error
          ⟨400, "Invalid interval. Must be one of: 1m, 5m, 15m, 1h, 4h, 1d, 1w"⟩) ∧
    ((end_date.getD now) - start_date > 365 * 86400 →
      ∃ e : HError,
        read_price_history cryptocurrency_id start_date end_date interval now =
          Except.error e ∧ e.status = 400) := by
  constructor
  · intro h
    unfold read_price_history
    simp [h]
  · intro h
    unfold read_price_history
    by_cases hi : interval ∈ valid_intervals
    · refine ⟨⟨400, "Date range cannot exceed 365 days"⟩, ?_, rfl⟩
      rw [if_neg (not_not_intro hi), if_pos h]
    · exact ⟨⟨400, "Invalid interval. Must be one of: 1m, 5m, 15m, 1h, 4h, 1d, 1w"⟩,
        by simp [hi], rfl⟩

theorem read_price_history_rejects_invalid_witness :
    read_price_history "btc" 0 (some 3600) "2h" 0 =
      Except.error
        ⟨400, "Invalid interval. Must be one of: 1m, 5m, 15m, 1h, 4h, 1d, 1w"⟩ ∧
    (∃ e : HError, read_price_history "btc" 0 (some 31622400) "1h" 0 =
        Except.error e ∧ e.status = 400) :=
  ⟨(read_price_history_rejects_invalid "btc" 0 (some 3600) "2h" 0).1 (by decide),
   (read_price_history_rejects_invalid "btc" 0 (some 31622400) "1h" 0).2 (by decide)⟩

/-- C8: delete_user answers 404 when the target id is absent; when the
target is the caller (superuser or not) it answers 400 and the table is
unchanged; when the target is another user it answers with the deleted
record and the resulting table holds exactly the rows whose id differs
from the target id. -/
theorem delete_user_rules (db : List User) (user_id : String) (cu : User) :
    (getUser db user_id = none →
      delete_user db user_id cu = (Except.error ⟨404, "User not found"⟩, db)) ∧
    (∀ target, getUser db user_id = some target → target.id = cu.id →
      delete_user db user_id cu =
        (Except.error ⟨400, "Cannot delete yourself"⟩, db)) ∧
    (∀ target, getUser db user_id = some target → target.id ≠ cu.id →
      (delete_user db user_id cu).1 = Except.ok target ∧
      ∀ u, u ∈ (delete_user db user_id cu).2 ↔ u ∈ db ∧ u.id ≠ user_id) := by
  refine ⟨?_, ?_, ?_⟩
  · intro h
    unfold delete_user
    rw [h]
  · intro target h hid
    unfold delete_user
    simp only [h]
    rw [if_pos hid]
  · intro target h hid
    unfold delete_user
    simp only [h]
    rw [if_neg hid]
    refine ⟨rfl, ?_⟩
    intro u
    simp [List.mem_filter]

theorem delete_user_rules_witness :
    delete_user [adminUser, plainUser] "u1" adminUser =
      (Except.error ⟨400, "Cannot delete yourself"⟩, [adminUser, plainUser]) ∧
    (delete_user [adminUser, plainUser] "u2" adminUser).1 = Except.ok plainUser ∧
    delete_user [adminUser] "zz" adminUser =
      (Except.error ⟨404, "User not found"⟩, [adminUser]) :=
  ⟨(delete_user_rules [adminUser, plainUser] "u1" adminUser).2.1 adminUser
      (by decide) rfl,
   ((delete_user_rules [adminUser, plainUser] "u2" adminUser).2.2 plainUser
      (by decide) (by decide)).1,
   (delete_user_rules [adminUser] "zz" adminUser).1 (by decide)⟩

/-- C9: when the caller is not a superuser, update_user strips the
is_superuser field from the payload before applying the update, so two
requests differing only in the submitted is_superuser value produce
identical responses and identical stored tables. -/
theorem update_user_superuser_field_ignored (db : List User) (user_id : String)
    (cu : User) (p : UserUpdatePayload) (v1 v2 : Option Bool)
    (h : cu.is_superuser = false) :
    update_user db user_id cu { p with is_superuser := v1 } =
      update_user db user_id cu { p with is_superuser := v2 } := by
  unfold update_user
  simp [h]

theorem update_user_superuser_field_ignored_witness :
    update_user [plainUser] "u2" plainUser
        { email := none, full_name := some "New", is_active := none
          is_superuser := some true, password := none } =
      update_user [plainUser] "u2" plainUser
        { email := none, full_name := some "New", is_active := none
          is_superuser := none, password := none } :=
  update_user_superuser_field_ignored [plainUser] "u2" plainUser
    ⟨none, some "New", none, none, none⟩ (some true) none rfl

/-- C10: whenever the refresh-token endpoint succeeds, the response
carries the submitted refresh token itself, unchanged (no rotation, no
newly minted refresh token), together with a freshly created access token
of kind "access" whose expiry is now plus the access window. -/
theorem refresh_token_endpoint_no_rotation (db : List User) (tok : Token)
    (secret : String) (now d : Int) (resp : TokenResponse)
    (h : refresh_token_endpoint db tok secret now d = Except.ok resp) :
    resp.refresh_token = tok ∧ resp.token_type = "bearer" ∧
    resp.access_token.typ = "access" ∧ resp.access_token.exp = now + d := by
  unfold refresh_token_endpoint at h
  cases hv : verify_refresh_token tok secret now with
  | none =>
    rw [hv] at h
    exact Except.noConfusion h
  | some td =>
    simp only [hv] at h
    cases hf : db.find? (fun u => decide (some u.id = td.sub)) with
    | none =>
      simp only [hf] at h
      exact Except.noConfusion h
    | some u =>
      simp only [hf] at h
      cases h
      exact ⟨rfl, rfl, rfl, rfl⟩

theorem refresh_token_endpoint_no_rotation_witness :
    ({ access_token := create_access_token "u2" 50 0 "s"
       refresh_token := refreshTok
       token_type := "bearer" } : TokenResponse).refresh_token = refreshTok ∧
    (create_access_token "u2" 50 0 "s").typ = "access" ∧
    (create_access_token "u2" 50 0 "s").exp = 0 + 50 := by
  have h : refresh_token_endpoint [plainUser] refreshTok "s" 0 50 =
      Except.ok
        { access_token := create_access_token "u2" 50 0 "s"
          refresh_token := refreshTok
          token_type := "bearer" } := rfl
  have h2 := refresh_token_endpoint_no_rotation [plainUser] refreshTok "s" 0 50 _ h
  exact ⟨h2.1, h2.2.2.1, h2.2.2.2⟩

end CryptoVision
